import Mathlib

/-!
Shallow embedding of `src/backend/index.js` (an Express student-record
service backed by a flat JSON file) and proofs of the specification
claims about it.

JavaScript values are modelled by `JSVal`; the on-disk JSON document by
`FileState`; `loadStudents` and `saveStudents` mirror the helper
functions of the source; the three routes are pure functions threading
the disk state and recording which store operations they invoked.
Exceptions raised by the handlers (dynamic-type errors such as calling
`toLowerCase` on a number) are modelled with `Except String`.
-/

/-- A JavaScript value, as far as this program manipulates them.
Numbers are modelled by `Int` (the only numeric field, `id`, is a
millisecond timestamp).  Objects are ordered association lists, matching
JS insertion order; the objects this program builds have distinct keys. -/
inductive JSVal where
  | vUndefined
  | vNull
  | vStr (s : String)
  | vNum (n : Int)
  | vBool (b : Bool)
  | vArr (xs : List JSVal)
  | vObj (fields : List (String × JSVal))

/-- JS truthiness, restricted to the modelled values. -/
def truthy : JSVal → Bool
  | .vUndefined => false
  | .vNull => false
  | .vStr s => !s.isEmpty
  | .vNum n => n != 0
  | .vBool b => b
  | .vArr _ => true
  | .vObj _ => true

/-- JS property read `v[k]`: first binding in the object, `undefined`
for a missing key or a non-object receiver. -/
def getField : JSVal → String → JSVal
  | .vObj fs, k =>
    match fs.find? (fun p => p.1 == k) with
    | some p => p.2
    | none => .vUndefined
  | _, _ => .vUndefined

/-- Whether the first list is an initial segment of the second. -/
def leadMatch : List Char → List Char → Bool
  | [], _ => true
  | _ :: _, [] => false
  | a :: as, b :: bs => a == b && leadMatch as bs

/-- Whether `needle` occurs contiguously inside the second list; with
`lowerChars` this is JS `s.includes(sub)` after `toLowerCase`. -/
def seqContains (needle : List Char) : List Char → Bool
  | [] => needle.isEmpty
  | c :: t => leadMatch needle (c :: t) || seqContains needle t

/-- JS `s.toLowerCase()`, as a character list (the program only ever
compares the results, so the list of lowercased characters suffices). -/
def lowerChars (s : String) : List Char :=
  s.toList.map Char.toLower

/-- The persisted `students.json` file, abstractly: missing, present but
empty, present with content `JSON.parse` rejects, or present with
content parsing to `v`. -/
inductive FileState where
  | absent
  | emptyContent
  | malformed (raw : String)
  | parsed (v : JSVal)

/-- What `loadStudents` hands back: the value, and whether the catch
branch logged a read error. -/
structure LoadResult where
  value : JSVal
  errorLogged : Bool

/-- `loadStudents` (index.js lines 19-36): missing file or empty content
give `[]`; a parse failure is caught, logged and gives `[]`; otherwise
the parsed value is returned unchanged.  Reading never writes the file. -/
def loadStudents : FileState → LoadResult
  | .absent => ⟨.vArr [], false⟩
  | .emptyContent => ⟨.vArr [], false⟩
  | .malformed _ => ⟨.vArr [], true⟩
  | .parsed v => ⟨v, false⟩

/-- What `saveStudents` leaves behind: the new disk state, and whether
the catch branch logged a write error. -/
structure SaveResult where
  disk : FileState
  errorLogged : Bool

mutual

/-- The value `JSON.parse` reads back after `JSON.stringify` wrote `v`:
object fields holding `undefined` are dropped, `undefined` array
elements become `null`, everything else survives unchanged. -/
def jsonImage : JSVal → JSVal
  | .vUndefined => .vUndefined
  | .vNull => .vNull
  | .vStr s => .vStr s
  | .vNum n => .vNum n
  | .vBool b => .vBool b
  | .vArr xs => .vArr (jsonImageArr xs)
  | .vObj fs => .vObj (jsonImageObj fs)

/-- `jsonImage` on array elements. -/
def jsonImageArr : List JSVal → List JSVal
  | [] => []
  | .vUndefined :: xs => .vNull :: jsonImageArr xs
  | x :: xs => jsonImage x :: jsonImageArr xs

/-- `jsonImage` on object fields. -/
def jsonImageObj : List (String × JSVal) → List (String × JSVal)
  | [] => []
  | (_, .vUndefined) :: fs => jsonImageObj fs
  | (k, v) :: fs => (k, jsonImage v) :: jsonImageObj fs

end

/-- `saveStudents` (index.js lines 42-50): stringify and overwrite the
file; a write failure is caught and logged, leaving the previous disk
state, and the function returns normally either way.  `writeOk` says
whether the file-system write succeeds. -/
def saveStudents (students : JSVal) (writeOk : Bool) (disk : FileState) : SaveResult :=
  if writeOk then ⟨.parsed (jsonImage students), false⟩ else ⟨disk, true⟩

/-- An HTTP response: status code and (for JSON routes) the value the
client receives after serialization. -/
structure HttpResponse where
  status : Nat
  body : JSVal

/-- `res.status(n).json(v)`: the client observes the JSON image of `v`. -/
def resJson (status : Nat) (v : JSVal) : HttpResponse :=
  ⟨status, jsonImage v⟩

/-- Falsiness of an optional query-string parameter: absent or empty. -/
def paramFalsy : Option String → Bool
  | none => true
  | some s => s.isEmpty

/-- The filter callback of `GET /students` (index.js lines 69-75) on one
record: if `student[searchBy]` is truthy, the code calls `toLowerCase`
on it — a `TypeError` unless the value is a string — and tests whether
the result contains `lowerQuery`; otherwise the record is dropped. -/
def filterCheck (searchBy : String) (lowerQuery : List Char) (student : JSVal) :
    Except String Bool :=
  let v := getField student searchBy
  if truthy v then
    match v with
    | .vStr s => .ok (seqContains lowerQuery (lowerChars s))
    | _ => .error "TypeError: toLowerCase is not a function"
  else
    .ok false

/-- `Array.prototype.filter` with a callback that may throw: elements
are visited left to right and the first exception aborts the call. -/
def filterExcept (p : JSVal → Except String Bool) : List JSVal → Except String (List JSVal)
  | [] => .ok []
  | x :: xs => do
    let keep ← p x
    let rest ← filterExcept p xs
    .ok (if keep then x :: rest else rest)

/-- `GET /` (index.js line 54): fixed liveness text, disk untouched. -/
def getRootRoute (disk : FileState) : HttpResponse × FileState :=
  (⟨200, .vStr "Student Info Backend Running"⟩, disk)

/-- `GET /students` (index.js lines 57-78).  Loads the store, returns it
whole when either parameter is falsy, and otherwise filters it with
`filterCheck`; a thrown `TypeError` (non-string truthy field, or a
non-array store) escapes the handler.  The disk is returned alongside:
this route performs no write. -/
def getStudentsRoute (disk : FileState) (searchBy query : Option String) :
    Except String HttpResponse × FileState :=
  let students := (loadStudents disk).value
  if paramFalsy searchBy || paramFalsy query then
    (.ok (resJson 200 (.vObj [("students", students)])), disk)
  else
    let lowerQuery := lowerChars (query.getD "")
    match students with
    | .vArr l =>
      match filterExcept (filterCheck (searchBy.getD "") lowerQuery) l with
      | .ok filtered => (.ok (resJson 200 (.vObj [("students", .vArr filtered)])), disk)
      | .error e => (.error e, disk)
    | _ => (.error "TypeError: students.filter is not a function", disk)

/-- The record `POST /students` constructs (index.js lines 95-104):
`id` is `Date.now()`, `address` defaults to the empty string through
`||`, every other field is taken from the request body as destructured. -/
def mkNewStudent (body : JSVal) (now : Int) : JSVal :=
  let address := getField body "address"
  .vObj [("id", .vNum now),
         ("name", getField body "name"),
         ("rollNo", getField body "rollNo"),
         ("universityId", getField body "universityId"),
         ("bloodGroup", getField body "bloodGroup"),
         ("address", if truthy address then address else .vStr ""),
         ("year", getField body "year"),
         ("department", getField body "department")]

/-- Everything observable about one `POST /students` request: the
response (or escaped exception), the final disk state, whether the
handler reached `loadStudents` and `saveStudents`, and whether the save
logged a write error. -/
structure PostOutcome where
  result : Except String HttpResponse
  disk : FileState
  loadCalled : Bool
  saveCalled : Bool
  saveErrorLogged : Bool

/-- `POST /students` (index.js lines 81-112).  Validation rejects any
falsy required field with a 400 before touching the store; otherwise the
handler builds the record, loads the store, appends (`push` throws if
the loaded value is not an array), saves, and answers 201 regardless of
whether the save succeeded.  `now` is `Date.now()`; `writeOk` is whether
the file write inside `saveStudents` succeeds. -/
def postStudentsRoute (disk : FileState) (body : JSVal) (now : Int) (writeOk : Bool) :
    PostOutcome :=
  if !truthy (getField body "name") || !truthy (getField body "rollNo") ||
      !truthy (getField body "universityId") || !truthy (getField body "year") ||
      !truthy (getField body "department") then
    { result := .ok (resJson 400 (.vObj [("error",
        .vStr "Missing required fields: name, rollNo, universityId, year, department")])),
      disk := disk, loadCalled := false, saveCalled := false, saveErrorLogged := false }
  else
    let newStudent := mkNewStudent body now
    match (loadStudents disk).value with
    | .vArr l =>
      let saved := saveStudents (.vArr (l ++ [newStudent])) writeOk disk
      { result := .ok (resJson 201 (.vObj [("message", .vStr "Student added"),
          ("student", newStudent)])),
        disk := saved.disk, loadCalled := true, saveCalled := true,
        saveErrorLogged := saved.errorLogged }
    | _ =>
      { result := .error "TypeError: students.push is not a function",
        disk := disk, loadCalled := true, saveCalled := false, saveErrorLogged := false }

/-- A value at which the filter callback cannot throw: either a string,
or falsy (so the `toLowerCase` call is never reached). -/
def isStrOrFalsy : JSVal → Bool
  | .vStr _ => true
  | v => !truthy v

/-- The filter predicate in the words of the specification: the record
has a truthy value at field `sb` and that value, lowercased, contains
the lowercased query as a substring. -/
def specFilterMatch (sb q : String) (r : JSVal) : Bool :=
  truthy (getField r sb) &&
    match getField r sb with
    | .vStr s => seqContains (lowerChars q) (lowerChars s)
    | _ => false

/-- The claim reading of "appears exactly once": `L` splits around one
occurrence of `r`, with `r` in neither remaining side. -/
def appearsExactlyOnce (r : JSVal) (L : List JSVal) : Prop :=
  ∃ l₁ l₂, L = l₁ ++ r :: l₂ ∧ r ∉ l₁ ∧ r ∉ l₂

/-- Whether a JS value is an array. -/
def isArray : JSVal → Bool
  | .vArr _ => true
  | _ => false

/-- The 400 payload of the validation branch of `POST /students`. -/
def errBody400 : JSVal :=
  .vObj [("error",
    .vStr "Missing required fields: name, rollNo, universityId, year, department")]

/-- First record of the filter example in the specification. -/
def recAlice : JSVal := .vObj [("name", .vStr "Alice"), ("dept", .vStr "CS")]

/-- Second record of the filter example in the specification. -/
def recBob : JSVal := .vObj [("name", .vStr "bob"), ("dept", .vStr "ECE")]

/-- A stored record with every field of the Record table, `id` integer. -/
def recFull : JSVal := .vObj [("id", .vNum 1), ("name", .vStr "Alice"), ("rollNo", .vStr "1"),
  ("universityId", .vStr "U1"), ("bloodGroup", .vStr "A+"), ("address", .vStr "x"),
  ("year", .vStr "2"), ("department", .vStr "CS")]

/-- A creation payload with all five required fields populated. -/
def studentBody : JSVal :=
  .vObj [("name", .vStr "Alice"), ("rollNo", .vStr "7"), ("universityId", .vStr "U1"),
    ("year", .vStr "2"), ("department", .vStr "CS")]

/-- The record the duplicate-store counterexample plants: exactly the
JSON image of the record `POST` will create at the same millisecond. -/
def dupRec : JSVal := jsonImage (mkNewStudent studentBody 5)

theorem getStudentsRoute_snd (disk : FileState) (sb q : Option String) :
    (getStudentsRoute disk sb q).2 = disk := by
  unfold getStudentsRoute
  dsimp only
  split
  · rfl
  · split
    · split <;> rfl
    · rfl

mutual

theorem jsonImage_idem : (v : JSVal) → jsonImage (jsonImage v) = jsonImage v
  | .vUndefined => rfl
  | .vNull => rfl
  | .vStr _ => rfl
  | .vNum _ => rfl
  | .vBool _ => rfl
  | .vArr xs => by simp [jsonImage, jsonImageArr_idem xs]
  | .vObj fs => by simp [jsonImage, jsonImageObj_idem fs]

theorem jsonImageArr_idem : (xs : List JSVal) → jsonImageArr (jsonImageArr xs) = jsonImageArr xs
  | [] => rfl
  | .vUndefined :: xs => by simp [jsonImageArr, jsonImage, jsonImageArr_idem xs]
  | .vNull :: xs => by simp [jsonImageArr, jsonImage, jsonImageArr_idem xs]
  | .vStr s :: xs => by simp [jsonImageArr, jsonImage, jsonImageArr_idem xs]
  | .vNum n :: xs => by simp [jsonImageArr, jsonImage, jsonImageArr_idem xs]
  | .vBool b :: xs => by simp [jsonImageArr, jsonImage, jsonImageArr_idem xs]
  | .vArr ys :: xs => by
      simp [jsonImageArr, jsonImage, jsonImageArr_idem xs, jsonImageArr_idem ys]
  | .vObj fs :: xs => by
      simp [jsonImageArr, jsonImage, jsonImageArr_idem xs, jsonImageObj_idem fs]

theorem jsonImageObj_idem :
    (fs : List (String × JSVal)) → jsonImageObj (jsonImageObj fs) = jsonImageObj fs
  | [] => rfl
  | (k, .vUndefined) :: fs => by simp [jsonImageObj, jsonImageObj_idem fs]
  | (k, .vNull) :: fs => by simp [jsonImageObj, jsonImage, jsonImageObj_idem fs]
  | (k, .vStr s) :: fs => by simp [jsonImageObj, jsonImage, jsonImageObj_idem fs]
  | (k, .vNum n) :: fs => by simp [jsonImageObj, jsonImage, jsonImageObj_idem fs]
  | (k, .vBool b) :: fs => by simp [jsonImageObj, jsonImage, jsonImageObj_idem fs]
  | (k, .vArr ys) :: fs => by
      simp [jsonImageObj, jsonImage, jsonImageObj_idem fs, jsonImageArr_idem ys]
  | (k, .vObj gs) :: fs => by
      simp [jsonImageObj, jsonImage, jsonImageObj_idem fs, jsonImageObj_idem gs]

end

theorem jsonImageArr_append (l₁ l₂ : List JSVal) :
    jsonImageArr (l₁ ++ l₂) = jsonImageArr l₁ ++ jsonImageArr l₂ := by
  induction l₁ with
  | nil => rfl
  | cons x xs ih => cases x <;> simp [jsonImageArr, ih]

theorem filterExcept_ok (p : JSVal → Except String Bool) (g : JSVal → Bool)
    (l : List JSVal) (h : ∀ x ∈ l, p x = .ok (g x)) :
    filterExcept p l = .ok (l.filter g) := by
  induction l with
  | nil => rfl
  | cons x xs ih =>
    have hx := h x (List.mem_cons_self x xs)
    have hxs := ih (fun y hy => h y (List.mem_cons_of_mem x hy))
    simp only [filterExcept, hx, hxs, List.filter_cons]
    cases g x <;> rfl

theorem filterCheck_agrees (sb q : String) (r : JSVal)
    (h : isStrOrFalsy (getField r sb) = true) :
    filterCheck sb (lowerChars q) r = .ok (specFilterMatch sb q r) := by
  unfold filterCheck specFilterMatch
  cases hv : getField r sb <;>
    simp only [hv, isStrOrFalsy, truthy, Bool.not_eq_true'] at h ⊢
  case vStr s =>
    by_cases hs : s.isEmpty <;> simp [truthy, hs]
  all_goals first
    | exact Bool.noConfusion h
    | simp [h]

theorem getStudentsRoute_spec (disk : FileState) (l : List JSVal) (sb q : Option String)
    (hload : (loadStudents disk).value = .vArr l)
    (hstr : l.all (fun r => isStrOrFalsy (getField r (sb.getD ""))) = true) :
    (getStudentsRoute disk sb q).1 =
      .ok (resJson 200 (.vObj [("students",
        if paramFalsy sb || paramFalsy q then JSVal.vArr l
        else .vArr (l.filter (specFilterMatch (sb.getD "") (q.getD ""))))])) := by
  unfold getStudentsRoute
  dsimp only
  rw [hload]
  by_cases hp : (paramFalsy sb || paramFalsy q) = true
  · simp [hp]
  · rw [List.all_eq_true] at hstr
    have hfe : filterExcept (filterCheck (sb.getD "") (lowerChars (q.getD ""))) l =
        .ok (l.filter (specFilterMatch (sb.getD "") (q.getD ""))) :=
      filterExcept_ok _ _ l (fun x hx => filterCheck_agrees _ _ x (hstr x hx))
    simp [hp, hfe]

/-- C1: for every GET /students request over a stored collection in
which each record holds, at the searched field, either a string or a
falsy value (the domain on which "that value, lowercased" is defined),
a falsy `searchBy` or `query` yields the full collection wrapped as
`students`, and otherwise a record is included in the response exactly
when it has a truthy value at field `searchBy` whose lowercased text
contains the lowercased query as a substring; a field no record has, or
an empty or absent field value, excludes the record. -/
theorem c1_get_students_filter (disk : FileState) (l : List JSVal) (sb q : Option String)
    (hload : (loadStudents disk).value = .vArr l)
    (hstr : l.all (fun r => isStrOrFalsy (getField r (sb.getD ""))) = true) :
    (getStudentsRoute disk sb q).1 =
      .ok (resJson 200 (.vObj [("students",
        if paramFalsy sb || paramFalsy q then JSVal.vArr l
        else .vArr (l.filter (specFilterMatch (sb.getD "") (q.getD ""))))])) :=
  getStudentsRoute_spec disk l sb q hload hstr

/-- C1 witness: the filter example of the specification, records Alice
and bob with `searchBy=name&query=ali`. -/
theorem c1_get_students_filter_witness :
    (getStudentsRoute (.parsed (.vArr [recAlice, recBob])) (some "name") (some "ali")).1 =
      .ok (resJson 200 (.vObj [("students",
        if paramFalsy (some "name") || paramFalsy (some "ali") then JSVal.vArr [recAlice, recBob]
        else .vArr ([recAlice, recBob].filter (specFilterMatch "name" "ali"))) ])) :=
  c1_get_students_filter (.parsed (.vArr [recAlice, recBob])) [recAlice, recBob]
    (some "name") (some "ali") rfl (by decide)

example : [recAlice, recBob].filter (specFilterMatch "name" "ali") = [recAlice] := by
  unfold recAlice recBob; rfl

example : [recAlice, recBob].filter (specFilterMatch "dept" "math") = [] := by
  unfold recAlice recBob; rfl

/-- C2 counterexample: with a stored record carrying the integer `id`
field of the Record table, `GET /students?searchBy=id&query=1` does not
answer 200 — the handler calls `toLowerCase` on the number and the
`TypeError` escapes, so the claim that no request to this route produces
an error response or an uncaught exception is false. -/
theorem c2_counterexample :
    (getStudentsRoute (.parsed (.vArr [recFull])) (some "id") (some "1")).1 =
      .error "TypeError: toLowerCase is not a function" := rfl

/-- C2 amended: GET /students answers 200 with a body of the shape
`students : sequence` whenever either parameter is falsy, or every
stored record holds a string-or-falsy value at the searched field;
when `searchBy` names a field holding a truthy non-string value (such
as the integer `id`), the handler instead throws a `TypeError`. -/
theorem c2_amended (disk : FileState) (l : List JSVal) (sb q : Option String)
    (hload : (loadStudents disk).value = .vArr l)
    (hsafe : (paramFalsy sb || paramFalsy q) = true ∨
      l.all (fun r => isStrOrFalsy (getField r (sb.getD ""))) = true) :
    ∃ v : List JSVal,
      (getStudentsRoute disk sb q).1 = .ok ⟨200, .vObj [("students", .vArr v)]⟩ := by
  by_cases hp : (paramFalsy sb || paramFalsy q) = true
  · refine ⟨jsonImageArr l, ?_⟩
    unfold getStudentsRoute
    dsimp only
    rw [hload]
    simp [hp, resJson, jsonImage, jsonImageObj, jsonImageArr]
  · have hstr := hsafe.resolve_left hp
    refine ⟨jsonImageArr (l.filter (specFilterMatch (sb.getD "") (q.getD ""))), ?_⟩
    rw [getStudentsRoute_spec disk l sb q hload hstr]
    simp [hp, resJson, jsonImage, jsonImageObj, jsonImageArr]

/-- C2 amended, witness: searching the string-valued `name` field of a
full record answers 200 with the `students` shape. -/
theorem c2_amended_witness :
    ∃ v : List JSVal,
      (getStudentsRoute (.parsed (.vArr [recFull])) (some "name") (some "ali")).1 =
        .ok ⟨200, .vObj [("students", .vArr v)]⟩ :=
  c2_amended (.parsed (.vArr [recFull])) [recFull] (some "name") (some "ali") rfl
    (Or.inr (by decide))

/-- C3: a POST /students request in which any of the five required
fields is falsy answers 400 with the missing-field payload, invokes
neither `loadStudents` nor `saveStudents`, leaves the disk unchanged,
and a subsequent GET /students behaves exactly as before the request. -/
theorem c3_validation_rejects (disk : FileState) (body : JSVal) (now : Int) (writeOk : Bool)
    (h : truthy (getField body "name") = false ∨ truthy (getField body "rollNo") = false ∨
      truthy (getField body "universityId") = false ∨ truthy (getField body "year") = false ∨
      truthy (getField body "department") = false) :
    postStudentsRoute disk body now writeOk =
      { result := .ok (resJson 400 errBody400), disk := disk,
        loadCalled := false, saveCalled := false, saveErrorLogged := false } ∧
    ∀ sb q, getStudentsRoute (postStudentsRoute disk body now writeOk).disk sb q =
      getStudentsRoute disk sb q := by
  have hcond : (!truthy (getField body "name") || !truthy (getField body "rollNo") ||
      !truthy (getField body "universityId") || !truthy (getField body "year") ||
      !truthy (getField body "department")) = true := by
    rcases h with h | h | h | h | h <;> simp [h]
  have hmain : postStudentsRoute disk body now writeOk =
      { result := .ok (resJson 400 errBody400), disk := disk,
        loadCalled := false, saveCalled := false, saveErrorLogged := false } := by
    unfold postStudentsRoute
    rw [if_pos hcond]
    rfl
  exact ⟨hmain, fun sb q => by rw [hmain]⟩

/-- C3 witness: a payload supplying only `name` is rejected with 400 and
nothing about the store changes. -/
theorem c3_validation_rejects_witness :
    postStudentsRoute .absent (.vObj [("name", .vStr "Alice")]) 5 true =
      { result := .ok (resJson 400 errBody400), disk := .absent,
        loadCalled := false, saveCalled := false, saveErrorLogged := false } ∧
    getStudentsRoute (postStudentsRoute .absent (.vObj [("name", .vStr "Alice")]) 5 true).disk
        none none =
      getStudentsRoute .absent none none :=
  ⟨(c3_validation_rejects .absent (.vObj [("name", .vStr "Alice")]) 5 true
      (Or.inr (Or.inl rfl))).1,
   (c3_validation_rejects .absent (.vObj [("name", .vStr "Alice")]) 5 true
      (Or.inr (Or.inl rfl))).2 none none⟩

/-- C4: a POST /students request whose five required fields are all
truthy (over a store that loads as an array, as every store the server
itself writes does) answers 201 with message "Student added" and the
constructed record, saves the loaded collection with the record
appended, assigns `id := now`, copies every non-id field verbatim from
the payload, and defaults `address` to the empty string when falsy. -/
theorem c4_creation (disk : FileState) (l : List JSVal) (body : JSVal) (now : Int)
    (writeOk : Bool)
    (hload : (loadStudents disk).value = .vArr l)
    (hname : truthy (getField body "name") = true)
    (hroll : truthy (getField body "rollNo") = true)
    (huni : truthy (getField body "universityId") = true)
    (hyear : truthy (getField body "year") = true)
    (hdept : truthy (getField body "department") = true) :
    (postStudentsRoute disk body now writeOk).result =
      .ok (resJson 201 (.vObj [("message", .vStr "Student added"),
        ("student", mkNewStudent body now)])) ∧
    (postStudentsRoute disk body now writeOk).saveCalled = true ∧
    (postStudentsRoute disk body now writeOk).disk =
      (saveStudents (.vArr (l ++ [mkNewStudent body now])) writeOk disk).disk ∧
    getField (mkNewStudent body now) "id" = .vNum now ∧
    getField (mkNewStudent body now) "name" = getField body "name" ∧
    getField (mkNewStudent body now) "rollNo" = getField body "rollNo" ∧
    getField (mkNewStudent body now) "universityId" = getField body "universityId" ∧
    getField (mkNewStudent body now) "bloodGroup" = getField body "bloodGroup" ∧
    getField (mkNewStudent body now) "year" = getField body "year" ∧
    getField (mkNewStudent body now) "department" = getField body "department" ∧
    getField (mkNewStudent body now) "address" =
      (if truthy (getField body "address") then getField body "address" else .vStr "") := by
  have hcond : (!truthy (getField body "name") || !truthy (getField body "rollNo") ||
      !truthy (getField body "universityId") || !truthy (getField body "year") ||
      !truthy (getField body "department")) = false := by
    simp [hname, hroll, huni, hyear, hdept]
  have hmain : postStudentsRoute disk body now writeOk =
      { result := .ok (resJson 201 (.vObj [("message", .vStr "Student added"),
          ("student", mkNewStudent body now)])),
        disk := (saveStudents (.vArr (l ++ [mkNewStudent body now])) writeOk disk).disk,
        loadCalled := true, saveCalled := true,
        saveErrorLogged :=
          (saveStudents (.vArr (l ++ [mkNewStudent body now])) writeOk disk).errorLogged } := by
    unfold postStudentsRoute
    rw [if_neg (by simp [hcond])]
    rw [hload]
  exact ⟨by rw [hmain], by rw [hmain], by rw [hmain], rfl, rfl, rfl, rfl, rfl, rfl, rfl, rfl⟩

/-- C4 witness: a fully populated payload creates the record at the
empty store. -/
theorem c4_creation_witness :
    (postStudentsRoute .absent studentBody 5 true).result =
      .ok (resJson 201 (.vObj [("message", .vStr "Student added"),
        ("student", mkNewStudent studentBody 5)])) ∧
    (postStudentsRoute .absent studentBody 5 true).saveCalled = true ∧
    (postStudentsRoute .absent studentBody 5 true).disk =
      (saveStudents (.vArr ([] ++ [mkNewStudent studentBody 5])) true .absent).disk ∧
    getField (mkNewStudent studentBody 5) "id" = .vNum 5 ∧
    getField (mkNewStudent studentBody 5) "name" = getField studentBody "name" ∧
    getField (mkNewStudent studentBody 5) "rollNo" = getField studentBody "rollNo" ∧
    getField (mkNewStudent studentBody 5) "universityId" = getField studentBody "universityId" ∧
    getField (mkNewStudent studentBody 5) "bloodGroup" = getField studentBody "bloodGroup" ∧
    getField (mkNewStudent studentBody 5) "year" = getField studentBody "year" ∧
    getField (mkNewStudent studentBody 5) "department" = getField studentBody "department" ∧
    getField (mkNewStudent studentBody 5) "address" =
      (if truthy (getField studentBody "address") then getField studentBody "address"
       else .vStr "") :=
  c4_creation .absent [] studentBody 5 true rfl rfl rfl rfl rfl rfl

/-- C5: `loadStudents` never raises — a missing file yields the empty
collection, empty content yields the empty collection, malformed
content is logged and yields the empty collection, GET /students over
a malformed store answers 200 with empty `students`, and the read
routes leave a missing file missing (no file is created by reading). -/
theorem c5_load_fail_open :
    (∀ raw, loadStudents (.malformed raw) = ⟨.vArr [], true⟩) ∧
    loadStudents .absent = ⟨.vArr [], false⟩ ∧
    loadStudents .emptyContent = ⟨.vArr [], false⟩ ∧
    (∀ raw sb q, getStudentsRoute (.malformed raw) sb q =
      (.ok ⟨200, .vObj [("students", .vArr [])]⟩, .malformed raw)) ∧
    (∀ sb q, (getStudentsRoute .absent sb q).2 = .absent) := by
  refine ⟨fun raw => rfl, rfl, rfl, fun raw sb q => ?_, fun sb q => getStudentsRoute_snd _ _ _⟩
  cases hp : paramFalsy sb || paramFalsy q <;>
    simp [getStudentsRoute, hp, loadStudents, filterExcept, resJson, jsonImage,
      jsonImageObj, jsonImageArr]

/-- C6: `saveStudents` returns normally with no success signal, and a
valid POST whose write fails still answers 201 — the failure is only
logged, the disk stays as it was, and the caller cannot tell. -/
theorem c6_save_failure_swallowed (disk : FileState) (l : List JSVal) (body : JSVal)
    (now : Int)
    (hload : (loadStudents disk).value = .vArr l)
    (hname : truthy (getField body "name") = true)
    (hroll : truthy (getField body "rollNo") = true)
    (huni : truthy (getField body "universityId") = true)
    (hyear : truthy (getField body "year") = true)
    (hdept : truthy (getField body "department") = true) :
    (∀ students d, saveStudents students false d = ⟨d, true⟩) ∧
    (postStudentsRoute disk body now false).result =
      .ok (resJson 201 (.vObj [("message", .vStr "Student added"),
        ("student", mkNewStudent body now)])) ∧
    (postStudentsRoute disk body now false).disk = disk ∧
    (postStudentsRoute disk body now false).saveCalled = true ∧
    (postStudentsRoute disk body now false).saveErrorLogged = true := by
  have hcond : (!truthy (getField body "name") || !truthy (getField body "rollNo") ||
      !truthy (getField body "universityId") || !truthy (getField body "year") ||
      !truthy (getField body "department")) = false := by
    simp [hname, hroll, huni, hyear, hdept]
  have hmain : postStudentsRoute disk body now false =
      { result := .ok (resJson 201 (.vObj [("message", .vStr "Student added"),
          ("student", mkNewStudent body now)])),
        disk := disk, loadCalled := true, saveCalled := true, saveErrorLogged := true } := by
    unfold postStudentsRoute
    rw [if_neg (by simp [hcond])]
    rw [hload]
    rfl
  exact ⟨fun students d => rfl, by rw [hmain], by rw [hmain], by rw [hmain], by rw [hmain]⟩

/-- C6 witness: the valid payload against an empty store with a failing
write still receives 201 while the disk is unchanged. -/
theorem c6_save_failure_swallowed_witness :
    (∀ students d, saveStudents students false d = ⟨d, true⟩) ∧
    (postStudentsRoute .emptyContent studentBody 5 false).result =
      .ok (resJson 201 (.vObj [("message", .vStr "Student added"),
        ("student", mkNewStudent studentBody 5)])) ∧
    (postStudentsRoute .emptyContent studentBody 5 false).disk = .emptyContent ∧
    (postStudentsRoute .emptyContent studentBody 5 false).saveCalled = true ∧
    (postStudentsRoute .emptyContent studentBody 5 false).saveErrorLogged = true :=
  c6_save_failure_swallowed .emptyContent [] studentBody 5 rfl rfl rfl rfl rfl rfl

/-- C7 counterexample: starting from a stored collection that already
contains a record identical to the one POST is about to create (same
payload, same millisecond — `id` uniqueness is not enforced), the
created record appears twice in the subsequent unfiltered GET, so the
claim that it appears exactly once for every starting collection is
false. -/
theorem c7_counterexample :
    (getStudentsRoute (postStudentsRoute (.parsed (.vArr [dupRec])) studentBody 5 true).disk
        none none).1 =
      .ok ⟨200, .vObj [("students", .vArr [dupRec, dupRec])]⟩ ∧
    ¬ appearsExactlyOnce dupRec [dupRec, dupRec] := by
  constructor
  · rfl
  · rintro ⟨l₁, l₂, heq, h₁, h₂⟩
    cases l₁ with
    | nil =>
      simp only [List.nil_append, List.cons.injEq, true_and] at heq
      rw [← heq] at h₂
      exact h₂ (List.mem_cons_self _ _)
    | cons a t =>
      have ha : a = dupRec := (List.cons.injEq _ _ _ _ ▸ heq :
        dupRec = a ∧ _).1.symm
      exact h₁ (ha ▸ List.mem_cons_self a t)

/-- C7 amended: a record successfully created by POST /students (store
loading as `l`, save succeeding) is returned by the 201 response, a
subsequent unfiltered GET /students returns exactly the previously
stored records (as serialized) followed by the created record — so it
appears after all previously stored records with field values identical
to the 201 response — and it appears exactly once provided the previous
collection did not already contain an identical record. -/
theorem c7_roundtrip_amended (disk : FileState) (l : List JSVal) (body : JSVal) (now : Int)
    (hload : (loadStudents disk).value = .vArr l)
    (hname : truthy (getField body "name") = true)
    (hroll : truthy (getField body "rollNo") = true)
    (huni : truthy (getField body "universityId") = true)
    (hyear : truthy (getField body "year") = true)
    (hdept : truthy (getField body "department") = true) :
    (postStudentsRoute disk body now true).result =
      .ok ⟨201, .vObj [("message", .vStr "Student added"),
        ("student", jsonImage (mkNewStudent body now))]⟩ ∧
    (getStudentsRoute (postStudentsRoute disk body now true).disk none none).1 =
      .ok ⟨200, .vObj [("students",
        .vArr (jsonImageArr l ++ [jsonImage (mkNewStudent body now)]))]⟩ ∧
    (jsonImage (mkNewStudent body now) ∉ jsonImageArr l →
      appearsExactlyOnce (jsonImage (mkNewStudent body now))
        (jsonImageArr l ++ [jsonImage (mkNewStudent body now)])) := by
  have hcond : (!truthy (getField body "name") || !truthy (getField body "rollNo") ||
      !truthy (getField body "universityId") || !truthy (getField body "year") ||
      !truthy (getField body "department")) = false := by
    simp [hname, hroll, huni, hyear, hdept]
  have hmain : postStudentsRoute disk body now true =
      { result := .ok (resJson 201 (.vObj [("message", .vStr "Student added"),
          ("student", mkNewStudent body now)])),
        disk := .parsed (jsonImage (.vArr (l ++ [mkNewStudent body now]))),
        loadCalled := true, saveCalled := true, saveErrorLogged := false } := by
    unfold postStudentsRoute
    rw [if_neg (by simp [hcond])]
    rw [hload]
    rfl
  refine ⟨?_, ?_, ?_⟩
  · rw [hmain]
    simp [resJson, jsonImage, jsonImageObj, mkNewStudent]
  · rw [hmain]
    show (getStudentsRoute (.parsed (jsonImage (.vArr (l ++ [mkNewStudent body now]))))
      none none).1 = _
    unfold getStudentsRoute
    dsimp only
    simp only [paramFalsy, Bool.true_or, if_true, loadStudents]
    simp [resJson, jsonImage, jsonImageArr_idem, jsonImageObj_idem, jsonImage_idem,
      jsonImageArr_append, jsonImageArr, jsonImageObj, mkNewStudent]
  · intro hnotin
    exact ⟨jsonImageArr l, [], rfl, hnotin, List.not_mem_nil _⟩

/-- C7 amended, witness: creation at the empty store, then GET. -/
theorem c7_roundtrip_amended_witness :
    (postStudentsRoute .absent studentBody 5 true).result =
      .ok ⟨201, .vObj [("message", .vStr "Student added"),
        ("student", jsonImage (mkNewStudent studentBody 5))]⟩ ∧
    (getStudentsRoute (postStudentsRoute .absent studentBody 5 true).disk none none).1 =
      .ok ⟨200, .vObj [("students",
        .vArr (jsonImageArr [] ++ [jsonImage (mkNewStudent studentBody 5)]))]⟩ ∧
    (jsonImage (mkNewStudent studentBody 5) ∉ jsonImageArr [] →
      appearsExactlyOnce (jsonImage (mkNewStudent studentBody 5))
        (jsonImageArr [] ++ [jsonImage (mkNewStudent studentBody 5)])) :=
  c7_roundtrip_amended .absent [] studentBody 5 rfl rfl rfl rfl rfl rfl

/-- C8: the read path is deterministic in the persisted state — running
GET /students twice with the same parameters and no intervening write
(the second call starting from the disk the first one left) gives the
very same outcome, response and disk alike. -/
theorem c8_read_idempotent (disk : FileState) (sb q : Option String) :
    getStudentsRoute (getStudentsRoute disk sb q).2 sb q = getStudentsRoute disk sb q ∧
    (getStudentsRoute (getStudentsRoute disk sb q).2 sb q).1 =
      (getStudentsRoute disk sb q).1 := by
  rw [getStudentsRoute_snd]
  exact ⟨rfl, rfl⟩

/-- C9: the fail-open policy of `loadStudents` covers only read and
parse errors — well-formed content that is not an array is returned
unchanged (not replaced by the empty collection), and a valid POST over
such a store does not append to an empty collection: `push` throws, the
request errors out, nothing is saved and the disk is unchanged. -/
theorem c9_nonarray_store (v : JSVal) (body : JSVal) (now : Int) (writeOk : Bool)
    (hv : isArray v = false)
    (hname : truthy (getField body "name") = true)
    (hroll : truthy (getField body "rollNo") = true)
    (huni : truthy (getField body "universityId") = true)
    (hyear : truthy (getField body "year") = true)
    (hdept : truthy (getField body "department") = true) :
    loadStudents (.parsed v) = ⟨v, false⟩ ∧
    postStudentsRoute (.parsed v) body now writeOk =
      { result := .error "TypeError: students.push is not a function",
        disk := .parsed v, loadCalled := true, saveCalled := false,
        saveErrorLogged := false } := by
  have hcond : (!truthy (getField body "name") || !truthy (getField body "rollNo") ||
      !truthy (getField body "universityId") || !truthy (getField body "year") ||
      !truthy (getField body "department")) = false := by
    simp [hname, hroll, huni, hyear, hdept]
  refine ⟨rfl, ?_⟩
  unfold postStudentsRoute
  rw [if_neg (by simp [hcond])]
  cases v <;> first | rfl | exact Bool.noConfusion hv

/-- C9 witness: a store holding a JSON object instead of an array. -/
theorem c9_nonarray_store_witness :
    loadStudents (.parsed (.vObj [("a", .vNum 1)])) = ⟨.vObj [("a", .vNum 1)], false⟩ ∧
    postStudentsRoute (.parsed (.vObj [("a", .vNum 1)])) studentBody 5 true =
      { result := .error "TypeError: students.push is not a function",
        disk := .parsed (.vObj [("a", .vNum 1)]), loadCalled := true, saveCalled := false,
        saveErrorLogged := false } :=
  c9_nonarray_store (.vObj [("a", .vNum 1)]) studentBody 5 true rfl rfl rfl rfl rfl rfl

/-- C10: the read routes never mutate the store — for every disk state
and every parameter combination, GET / and GET /students leave the
persisted document exactly as it was (these handlers only load). -/
theorem c10_reads_never_write (disk : FileState) (sb q : Option String) :
    (getRootRoute disk).2 = disk ∧ (getStudentsRoute disk sb q).2 = disk :=
  ⟨rfl, getStudentsRoute_snd disk sb q⟩
